import Mathlib

/-!
Verification of the CamemBERT sentence-transformers adapter
(`sentence_transformers/models/CamemBERT.py`).

The adapter wraps a pretrained encoder (`CamembertModel`) and tokenizer
(`CamembertTokenizer`).  The wrapped collaborators are external library
code; they are modelled here from the specification's collaborator
contracts.  The adapter's own code (constructor, `forward`, `tokenize`,
`get_sentence_features`, `get_config_dict`, `save`, `load`) is embedded
statement by statement from the source.

Python dictionaries are modelled as association lists with first-match
lookup and in-place-style update (replace the first occurrence of a key,
or append a fresh key at the end), which matches CPython dict ordering.
The shared mutable default of the `tokenizer_args` parameter is modelled
explicitly by threading a `PyGlobals` record through the constructor.
-/

/-- Lookup of a key in a Python-style dict modelled as an association list. -/
def dlookup {α : Type} (d : List (String × α)) (k : String) : Option α :=
  match d with
  | [] => none
  | (k', v) :: rest => if k' = k then some v else dlookup rest k

/-- Assignment `d[k] = v` on a Python-style dict: replace the first binding
of `k`, or append a new binding at the end (CPython insertion order). -/
def dictSet {α : Type} (d : List (String × α)) (k : String) (v : α) :
    List (String × α) :=
  match d with
  | [] => [(k, v)]
  | (k', v') :: rest => if k' = k then (k, v) :: rest else (k', v') :: dictSet rest k v

/-- Python `d.update(kvs)`: fold assignment over the given bindings. -/
def dictUpdate {α : Type} (d : List (String × α)) (kvs : List (String × α)) :
    List (String × α) :=
  kvs.foldl (fun acc p => dictSet acc p.1 p.2) d

/-- JSON values, as needed for the sidecar config file written by `save`
(numbers here are the natural numbers the config actually stores). -/
inductive Json where
  | jnum : Nat → Json
  | jbool : Bool → Json
  | jnull : Json
  | jobj : List (String × Json) → Json

/-- Tensors flowing through the forward pass: 2-D integer tensors
(ids, attention masks, per-batch summary embeddings), 3-D tensors
(batch x seq x hidden token embeddings), and stacks of per-layer
hidden states.  Numeric entries are modelled as integers. -/
inductive Tensor where
  | i2 : List (List Int) → Tensor
  | f3 : List (List (List Int)) → Tensor
  | stack : List (List (List (List Int))) → Tensor
deriving DecidableEq

/-- A feature dictionary: named tensors, as passed through `forward`. -/
abbrev Features := List (String × Tensor)

/-- Modelled from the spec: the delegate encoder's configuration object,
exposing `hidden_size` and `output_hidden_states`. -/
structure CamembertConfig where
  hidden_size : Nat
  output_hidden_states : Bool

/-- Modelled from the spec: the pretrained encoder, a callable returning a
tuple of output tensors whose first element is the per-token hidden states
and whose third element (when hidden states are requested) is the
per-layer stack. -/
structure CamembertModel where
  config : CamembertConfig
  run : Features → List Tensor

/-- Modelled from the spec: the pretrained tokenizer, exposing sub-word
splitting, id lookup, special tokens and a padding id.  `do_lower_case`
is the tokenizer's own lower-casing configuration. -/
structure CamembertTokenizer where
  do_lower_case : Bool
  rawTokenize : String → List String
  convert : String → Int
  cls_token : String
  sep_token : String
  pad_id : Int

/-- Modelled from the spec: lower-casing of a text, character by
character, as the tokenizer's lower-casing preprocessing. -/
def strLower (s : String) : String :=
  String.mk (s.data.map Char.toLower)

/-- Modelled from the spec: `tokenizer.tokenize(text)` splits text into
sub-word tokens, applying the tokenizer's lower-casing first when its
`do_lower_case` configuration is set.  No special tokens are added. -/
def CamembertTokenizer.tokenizeText (t : CamembertTokenizer) (text : String) :
    List String :=
  t.rawTokenize (if t.do_lower_case then strLower text else text)

/-- Modelled from the spec: `tokenizer.convert_tokens_to_ids` maps each
sub-word token to its integer vocabulary id. -/
def CamembertTokenizer.convert_tokens_to_ids (t : CamembertTokenizer)
    (toks : List String) : List Int :=
  toks.map t.convert

/-- The ids-plus-mask bundle returned by the tokenizer's
`prepare_for_model` routine (the fields the adapter's contract is about). -/
structure EncodedInput where
  input_ids : List Int
  attention_mask : List Nat
deriving DecidableEq

/-- Modelled from the spec: `tokenizer.prepare_for_model(ids, max_length,
pad_to_max_length=True)` for a single CamemBERT sequence: truncate the
content to `max_length - 2`, wrap it in the classification and separator
special tokens, then pad ids with the padding id and extend the attention
mask with zeros up to `max_length`. -/
def CamembertTokenizer.prepare_for_model (t : CamembertTokenizer)
    (ids : List Int) (max_length : Nat) : EncodedInput :=
  let content := ids.take (max_length - 2)
  let seq := t.convert t.cls_token :: (content ++ [t.convert t.sep_token])
  let padLen := max_length - seq.length
  { input_ids := seq ++ List.replicate padLen t.pad_id
    attention_mask := List.replicate seq.length 1 ++ List.replicate padLen 0 }

/-- A loadable pretrained directory or identifier: the stored encoder and
tokenizer that `from_pretrained` resolves it to. -/
structure Pretrained where
  model : CamembertModel
  tokenizer : CamembertTokenizer

/-- Modelled from the spec: `CamembertTokenizer.from_pretrained(path,
**tokenizer_args)` loads the stored tokenizer, applying a `do_lower_case`
entry of the keyword bag as an override of the tokenizer's own
configuration when present. -/
def CamembertTokenizer.from_pretrained (dir : Pretrained)
    (args : List (String × Bool)) : CamembertTokenizer :=
  match dlookup args "do_lower_case" with
  | some b => { dir.tokenizer with do_lower_case := b }
  | none => dir.tokenizer

/-- Modelled from the spec: `CamembertModel.from_pretrained(path)` loads
the stored encoder. -/
def CamembertModel.from_pretrained (dir : Pretrained) : CamembertModel :=
  dir.model

/-- The adapter instance: the fields assigned by `CamemBERT.__init__`. -/
structure CamemBERT where
  config_keys : List String
  do_lower_case : Option Bool
  max_seq_length : Nat
  camembert : CamembertModel
  tokenizer : CamembertTokenizer
  cls_token_id : Int
  sep_token_id : Int

/-- The module-level mutable state the constructor can touch: the shared
default dictionary of the `tokenizer_args` parameter. -/
structure PyGlobals where
  defaultTokenizerArgs : List (String × Bool)

/-- Everything `CamemBERT.__init__` produces or mutates: the instance, the
warnings logged, the module-level state after the call, and the content of
the `tokenizer_args` dictionary after the call (the dictionary handed to
the tokenizer loader, and aliased by the caller when one was passed). -/
structure InitResult where
  adapter : CamemBERT
  warnings : List String
  globalsOut : PyGlobals
  targsOut : List (String × Bool)

/-- The warning text logged when `max_seq_length` exceeds 511. -/
def maxSeqWarning : String :=
  "CamemBERT only allows a max_seq_length of 511 (514 with special tokens). Value will be set to 511"

/-- Embedding of `CamemBERT.__init__`: clamp `max_seq_length` to 511 with
a warning, write the `do_lower_case` override into `tokenizer_args` when
the parameter is not `None` (mutating the caller's dictionary, or the
shared default when the argument was omitted), load encoder and tokenizer,
and cache the classification and separator token ids. -/
def CamemBERT.initFull (g : PyGlobals) (dir : Pretrained)
    (max_seq_length : Nat) (do_lower_case : Option Bool)
    (targs? : Option (List (String × Bool))) : InitResult :=
  let targs0 := match targs? with
    | some a => a
    | none => g.defaultTokenizerArgs
  let msl := if max_seq_length > 511 then 511 else max_seq_length
  let warns := if max_seq_length > 511 then [maxSeqWarning] else []
  let targs1 := match do_lower_case with
    | some b => dictSet targs0 "do_lower_case" b
    | none => targs0
  let tok := CamembertTokenizer.from_pretrained dir targs1
  let adapter : CamemBERT :=
    { config_keys := ["max_seq_length", "do_lower_case"]
      do_lower_case := do_lower_case
      max_seq_length := msl
      camembert := CamembertModel.from_pretrained dir
      tokenizer := tok
      cls_token_id := (tok.convert_tokens_to_ids [tok.cls_token]).headD 0
      sep_token_id := (tok.convert_tokens_to_ids [tok.sep_token]).headD 0 }
  let g' := match targs?, do_lower_case with
    | none, some _ => { defaultTokenizerArgs := targs1 }
    | _, _ => g
  ⟨adapter, warns, g', targs1⟩

/-- Embedding of `CamemBERT.tokenize`: sub-word split, then map to ids. -/
def CamemBERT.tokenize (m : CamemBERT) (text : String) : List Int :=
  m.tokenizer.convert_tokens_to_ids (m.tokenizer.tokenizeText text)

/-- Embedding of `CamemBERT.get_sentence_features`: cap the requested pad
length at `max_seq_length`, add three slots for special tokens, and
delegate to the tokenizer's `prepare_for_model`. -/
def CamemBERT.get_sentence_features (m : CamemBERT) (tokens : List Int)
    (pad_seq_length : Nat) : EncodedInput :=
  m.tokenizer.prepare_for_model tokens (min pad_seq_length m.max_seq_length + 3)

/-- Embedding of `CamemBERT.get_word_embedding_dimension`. -/
def CamemBERT.get_word_embedding_dimension (m : CamemBERT) : Nat :=
  m.camembert.config.hidden_size

/-- Extraction of the classification-position embedding
`output_tokens[:, 0, :]`: the row at sequence position 0 of every batch
element; fails (as the tensor indexing would) when a batch element has an
empty sequence dimension. -/
def clsOf (t : List (List (List Int))) : Option (List (List Int)) :=
  t.mapM (fun row => row[0]?)

/-- Embedding of `CamemBERT.forward`: run the encoder on the feature
dictionary, store the first output as `token_embeddings`, the sequence
position 0 embedding as `cls_token_embeddings`, re-store the input
`attention_mask`, and, when the encoder is configured to output hidden
states, store the third output as `all_layer_embeddings`.  Returns `none`
where the Python raises (missing `attention_mask` key, missing or
ill-shaped tuple elements). -/
def CamemBERT.forward (m : CamemBERT) (features : Features) : Option Features :=
  match (m.camembert.run features)[0]? with
  | some (Tensor.f3 output_tokens) =>
    match clsOf output_tokens with
    | some cls_tokens =>
      match dlookup features "attention_mask" with
      | some am =>
        if m.camembert.config.output_hidden_states then
          match (m.camembert.run features)[2]? with
          | some hidden_states =>
            some (dictUpdate (dictUpdate features
              [("token_embeddings", Tensor.f3 output_tokens),
               ("cls_token_embeddings", Tensor.i2 cls_tokens),
               ("attention_mask", am)])
              [("all_layer_embeddings", hidden_states)])
          | none => none
        else
          some (dictUpdate features
            [("token_embeddings", Tensor.f3 output_tokens),
             ("cls_token_embeddings", Tensor.i2 cls_tokens),
             ("attention_mask", am)])
      | none => none
    | none => none
  | _ => none

/-- Embedding of the dynamic lookup `self.__dict__[key]` restricted to the
JSON-serializable config attributes named by `config_keys`. -/
def CamemBERT.fieldJson (m : CamemBERT) (k : String) : Json :=
  if k = "max_seq_length" then Json.jnum m.max_seq_length
  else if k = "do_lower_case" then
    match m.do_lower_case with
    | none => Json.jnull
    | some b => Json.jbool b
  else Json.jnull

/-- Embedding of `CamemBERT.get_config_dict`. -/
def CamemBERT.get_config_dict (m : CamemBERT) : List (String × Json) :=
  m.config_keys.map (fun k => (k, m.fieldJson k))

/-- What `save(output_path)` leaves in the output directory: the encoder
and tokenizer persisted by their own routines, and the sidecar config file
(its path, its JSON content, and the `indent` it was serialized with). -/
structure SavedDir where
  model : CamembertModel
  tokenizer : CamembertTokenizer
  configPath : String
  configJson : Json
  configIndent : Nat

/-- A saved directory is itself loadable as a pretrained identifier. -/
def SavedDir.toPretrained (d : SavedDir) : Pretrained :=
  ⟨d.model, d.tokenizer⟩

/-- Embedding of `CamemBERT.save`: delegate encoder and tokenizer
persistence, then dump `get_config_dict()` with `indent=2` to
`os.path.join(output_path, 'sentence_camembert_config.json')`. -/
def CamemBERT.save (m : CamemBERT) (output_path : String) : SavedDir :=
  { model := m.camembert
    tokenizer := m.tokenizer
    configPath := output_path ++ "/sentence_camembert_config.json"
    configJson := Json.jobj m.get_config_dict
    configIndent := 2 }

/-- Reading the sidecar JSON back into the keyword arguments that
`CamemBERT(model_name_or_path=input_path, **config)` receives; fails (as
`**` unpacking of a non-object or a wrongly-typed field would) otherwise. -/
def parseConfig (j : Json) : Option (Nat × Option Bool) :=
  match j with
  | Json.jobj fields =>
    match dlookup fields "max_seq_length" with
    | some (Json.jnum n) =>
      match dlookup fields "do_lower_case" with
      | some Json.jnull => some (n, none)
      | some (Json.jbool b) => some (n, some b)
      | _ => none
    | _ => none
  | _ => none

/-- Embedding of the static `CamemBERT.load`: read the sidecar config and
reconstruct an adapter from the same directory with the recovered scalars
as constructor arguments.  The call omits `tokenizer_args`, so the
constructor inside `load` uses the module-level shared default dictionary
in whatever ambient state `g` it is in at the time of the call (empty in a
fresh interpreter, but possibly polluted by earlier constructions). -/
def CamemBERT.load (g : PyGlobals) (d : SavedDir) : Option CamemBERT :=
  match parseConfig d.configJson with
  | some (msl, dlc) =>
    some (CamemBERT.initFull g d.toPretrained msl dlc none).adapter
  | none => none

/-- State-passing form of a `tokenize` method call: the instance as left
after the call is returned alongside the result (the method body contains
no assignment to instance attributes). -/
def CamemBERT.tokenize_call (m : CamemBERT) (text : String) :
    List Int × CamemBERT :=
  (m.tokenize text, m)

/-- State-passing form of a `get_sentence_features` method call. -/
def CamemBERT.get_sentence_features_call (m : CamemBERT) (tokens : List Int)
    (pad_seq_length : Nat) : EncodedInput × CamemBERT :=
  (m.get_sentence_features tokens pad_seq_length, m)

/-- State-passing form of a `forward` method call (the body mutates the
feature dictionary, not the instance). -/
def CamemBERT.forward_call (m : CamemBERT) (features : Features) :
    Option Features × CamemBERT :=
  (m.forward features, m)

/-- State-passing form of a `get_word_embedding_dimension` method call. -/
def CamemBERT.get_word_embedding_dimension_call (m : CamemBERT) :
    Nat × CamemBERT :=
  (m.get_word_embedding_dimension, m)

/-- An encoder identical in configuration but whose output tuple is cut
down to its first element: used to state that `forward` never reads
index 2 of the tuple when hidden states are not requested. -/
def truncateOutputs (e : CamembertModel) : CamembertModel :=
  { config := e.config, run := fun x => (e.run x).take 1 }

/-- A small concrete tokenizer used to evaluate the theorems on inputs. -/
def demoTokenizer : CamembertTokenizer :=
  { do_lower_case := false
    rawTokenize := fun s => [s]
    convert := fun s => Int.ofNat s.length
    cls_token := "<s>"
    sep_token := "</s>"
    pad_id := 1 }

/-- A small concrete encoder (hidden-state output disabled). -/
def demoModel : CamembertModel :=
  { config := { hidden_size := 2, output_hidden_states := false }
    run := fun _ => [Tensor.f3 [[[1, 2], [3, 4]]]] }

/-- A small concrete encoder configured to output hidden states. -/
def demoModelH : CamembertModel :=
  { config := { hidden_size := 2, output_hidden_states := true }
    run := fun _ => [Tensor.f3 [[[1, 2], [3, 4]]], Tensor.i2 [[0]],
                     Tensor.stack [[[[7, 8], [9, 10]]]]] }

/-- A concrete pretrained directory. -/
def demoDir : Pretrained := ⟨demoModel, demoTokenizer⟩

/-- A concrete pretrained directory whose encoder outputs hidden states. -/
def demoDirH : Pretrained := ⟨demoModelH, demoTokenizer⟩

/-- A concrete case-sensitive tokenizer: its id lookup distinguishes the
text "Bonjour" from its lower-cased form. -/
def demoTokenizerCase : CamembertTokenizer :=
  { do_lower_case := false
    rawTokenize := fun s => [s]
    convert := fun s => if s = "Bonjour" then 5 else 9
    cls_token := "<s>"
    sep_token := "</s>"
    pad_id := 1 }

/-- A concrete pretrained directory with the case-sensitive tokenizer. -/
def demoDirCase : Pretrained := ⟨demoModel, demoTokenizerCase⟩

/-- A concrete adapter built by the constructor. -/
def demoAdapter : CamemBERT :=
  (CamemBERT.initFull ⟨[]⟩ demoDir 128 none (some [])).adapter

/-- A concrete adapter whose encoder outputs hidden states. -/
def demoAdapterH : CamemBERT :=
  (CamemBERT.initFull ⟨[]⟩ demoDirH 128 none (some [])).adapter

theorem dlookup_dictSet_self {α : Type} (d : List (String × α)) (k : String)
    (v : α) : dlookup (dictSet d k v) k = some v := by
  induction d with
  | nil => simp [dictSet, dlookup]
  | cons hd tl ih =>
    cases hd with
    | mk a b =>
      by_cases ha : a = k
      · simp [dictSet, ha, dlookup]
      · simp [dictSet, dlookup, ha, ih]

theorem dlookup_dictSet_of_ne {α : Type} (d : List (String × α))
    (k k' : String) (v : α) (h : k' ≠ k) :
    dlookup (dictSet d k v) k' = dlookup d k' := by
  have h2 : ¬ k = k' := fun hh => h hh.symm
  induction d with
  | nil => simp [dictSet, dlookup, h2]
  | cons hd tl ih =>
    cases hd with
    | mk a b =>
      by_cases ha : a = k
      · subst ha
        simp [dictSet, dlookup, h2]
      · simp [dictSet, dlookup, ha]
        by_cases ha' : a = k'
        · simp [ha']
        · simp [ha', ih]

theorem isSome_dlookup_dictSet {α : Type} (d : List (String × α))
    (k k' : String) (v : α) (h : (dlookup d k').isSome) :
    (dlookup (dictSet d k v) k').isSome := by
  by_cases he : k' = k
  · subst he; simp [dlookup_dictSet_self]
  · rwa [dlookup_dictSet_of_ne d k k' v he]

theorem tokenizer_eta (t : CamembertTokenizer) (b : Bool)
    (h : t.do_lower_case = b) : { t with do_lower_case := b } = t := by
  cases t; cases h; rfl

/-- C1: for every `max_seq_length` argument greater than 511 the
constructed adapter stores 511 and the over-length warning is logged;
for every argument at most 511 the stored value is the argument unchanged
and no warning is logged. -/
theorem init_clamps_max_seq_length (g : PyGlobals) (dir : Pretrained)
    (msl : Nat) (dlc : Option Bool) (targs? : Option (List (String × Bool))) :
    (CamemBERT.initFull g dir msl dlc targs?).adapter.max_seq_length
      = (if msl > 511 then 511 else msl) ∧
    (CamemBERT.initFull g dir msl dlc targs?).warnings
      = (if msl > 511 then [maxSeqWarning] else []) :=
  ⟨rfl, rfl⟩

/-- C9: the adapter has no internal state transitions: the state-passing
forms of `tokenize`, `get_sentence_features`, `forward` and
`get_word_embedding_dimension` all leave the instance — hence every field
set at construction (`max_seq_length`, `do_lower_case`, `cls_token_id`,
`sep_token_id`, `config_keys`) — exactly as it was. -/
theorem adapter_stateless (m : CamemBERT) (text : String) (tokens : List Int)
    (pad_seq_length : Nat) (features : Features) :
    (m.tokenize_call text).2 = m ∧
    (m.get_sentence_features_call tokens pad_seq_length).2 = m ∧
    (m.forward_call features).2 = m ∧
    m.get_word_embedding_dimension_call.2 = m :=
  ⟨rfl, rfl, rfl, rfl⟩

/-- C7: the `do_lower_case` override is written into the tokenizer
loader's arguments exactly when the parameter is provided: with `None` the
argument dictionary is passed through unmodified (and, when it carries no
`do_lower_case` entry of its own, the tokenizer's stored lower-casing
configuration is untouched); with an explicit Boolean the entry is set and
the loaded tokenizer carries that value. -/
theorem init_do_lower_case_override (g : PyGlobals) (dir : Pretrained)
    (msl : Nat) (targs : List (String × Bool)) (b : Bool)
    (h : dlookup targs "do_lower_case" = none) :
    (CamemBERT.initFull g dir msl none (some targs)).targsOut = targs ∧
    (CamemBERT.initFull g dir msl none (some targs)).adapter.tokenizer
      = CamembertTokenizer.from_pretrained dir targs ∧
    (CamemBERT.initFull g dir msl none (some targs)).adapter.tokenizer.do_lower_case
      = dir.tokenizer.do_lower_case ∧
    (CamemBERT.initFull g dir msl (some b) (some targs)).targsOut
      = dictSet targs "do_lower_case" b ∧
    (CamemBERT.initFull g dir msl (some b) (some targs)).adapter.tokenizer.do_lower_case
      = b := by
  refine ⟨rfl, rfl, ?_, rfl, ?_⟩
  · simp [CamemBERT.initFull, CamembertTokenizer.from_pretrained, h]
  · simp [CamemBERT.initFull, CamembertTokenizer.from_pretrained,
      dlookup_dictSet_self]

theorem init_do_lower_case_override_witness :
    (CamemBERT.initFull ⟨[]⟩ demoDir 128 none (some [])).targsOut = [] ∧
    (CamemBERT.initFull ⟨[]⟩ demoDir 128 none (some [])).adapter.tokenizer
      = CamembertTokenizer.from_pretrained demoDir [] ∧
    (CamemBERT.initFull ⟨[]⟩ demoDir 128 none (some [])).adapter.tokenizer.do_lower_case
      = demoDir.tokenizer.do_lower_case ∧
    (CamemBERT.initFull ⟨[]⟩ demoDir 128 (some true) (some [])).targsOut
      = dictSet [] "do_lower_case" true ∧
    (CamemBERT.initFull ⟨[]⟩ demoDir 128 (some true) (some [])).adapter.tokenizer.do_lower_case
      = true :=
  init_do_lower_case_override ⟨[]⟩ demoDir 128 [] true rfl

/-- C10: when `do_lower_case` is provided, the constructor writes the
`do_lower_case` key into the `tokenizer_args` dictionary it was handed —
including the shared mutable default when the argument was omitted — so a
later construction that omits `tokenizer_args` (and passes no override of
its own) observes the previously written entry and its tokenizer is loaded
with that stale lower-casing override. -/
theorem default_tokenizer_args_pollution (g : PyGlobals)
    (dir1 dir2 : Pretrained) (msl1 msl2 : Nat) (b : Bool)
    (targs : List (String × Bool)) :
    dlookup (CamemBERT.initFull g dir1 msl1 (some b) (some targs)).targsOut
      "do_lower_case" = some b ∧
    dlookup (CamemBERT.initFull g dir1 msl1 (some b)
      none).globalsOut.defaultTokenizerArgs "do_lower_case" = some b ∧
    (CamemBERT.initFull (CamemBERT.initFull g dir1 msl1 (some b) none).globalsOut
      dir2 msl2 none none).adapter.tokenizer.do_lower_case = b := by
  refine ⟨?_, ?_, ?_⟩ <;>
    simp [CamemBERT.initFull, CamembertTokenizer.from_pretrained,
      dlookup_dictSet_self]

theorem drop_append_len {α : Type} (xs ys : List α) (n : Nat)
    (h : n = xs.length) : (xs ++ ys).drop n = ys := by
  subst h; exact List.drop_left xs ys

theorem prepare_for_model_shape (t : CamembertTokenizer) (ids : List Int)
    (L : Nat) (hL : 2 ≤ L) :
    (t.prepare_for_model ids L).input_ids.length = L ∧
    (t.prepare_for_model ids L).attention_mask.length = L ∧
    (t.prepare_for_model ids L).attention_mask
      = List.replicate (min ids.length (L - 2) + 2) 1
        ++ List.replicate (L - (min ids.length (L - 2) + 2)) 0 ∧
    (t.prepare_for_model ids L).input_ids.drop (min ids.length (L - 2) + 2)
      = List.replicate (L - (min ids.length (L - 2) + 2)) t.pad_id := by
  have hc : (ids.take (L - 2)).length = min ids.length (L - 2) := by
    simp [List.length_take]
    omega
  refine ⟨?_, ?_, ?_, ?_⟩
  · simp [CamembertTokenizer.prepare_for_model, hc]
    try omega
  · simp [CamembertTokenizer.prepare_for_model, hc]
    try omega
  · simp [CamembertTokenizer.prepare_for_model, hc]
  · simp only [CamembertTokenizer.prepare_for_model]
    rw [drop_append_len]
    · congr 1
      simp [List.length_take]
      omega
    · simp [List.length_take]
      omega

/-- C2: `get_sentence_features(tokens, pad_seq_length)` hands the
tokenizer's `prepare_for_model` an effective length of
`min(pad_seq_length, max_seq_length) + 3`, and the returned ids and
attention mask both have exactly that many positions regardless of the
token count; the attention mask is active exactly on the non-padding
positions and the remaining id positions carry the padding id. -/
theorem get_sentence_features_spec (m : CamemBERT) (tokens : List Int)
    (pad_seq_length : Nat) :
    m.get_sentence_features tokens pad_seq_length
      = m.tokenizer.prepare_for_model tokens
          (min pad_seq_length m.max_seq_length + 3) ∧
    (m.get_sentence_features tokens pad_seq_length).input_ids.length
      = min pad_seq_length m.max_seq_length + 3 ∧
    (m.get_sentence_features tokens pad_seq_length).attention_mask.length
      = min pad_seq_length m.max_seq_length + 3 ∧
    (m.get_sentence_features tokens pad_seq_length).attention_mask
      = List.replicate
          (min tokens.length (min pad_seq_length m.max_seq_length + 3 - 2) + 2) 1
        ++ List.replicate (min pad_seq_length m.max_seq_length + 3
            - (min tokens.length (min pad_seq_length m.max_seq_length + 3 - 2) + 2)) 0 ∧
    (m.get_sentence_features tokens pad_seq_length).input_ids.drop
        (min tokens.length (min pad_seq_length m.max_seq_length + 3 - 2) + 2)
      = List.replicate (min pad_seq_length m.max_seq_length + 3
          - (min tokens.length (min pad_seq_length m.max_seq_length + 3 - 2) + 2))
          m.tokenizer.pad_id := by
  have h := prepare_for_model_shape m.tokenizer tokens
    (min pad_seq_length m.max_seq_length + 3) (by omega)
  exact ⟨rfl, h.1, h.2.1, h.2.2.1, h.2.2.2⟩

/-- C6: `save(output_path)` writes the sidecar JSON at exactly
`output_path/sentence_camembert_config.json`, with content exactly the two
fields `max_seq_length` (number) and `do_lower_case` (Boolean or null) and
no others, serialized with `indent=2`. -/
theorem save_writes_exact_config (g : PyGlobals) (dir : Pretrained)
    (msl : Nat) (dlc : Option Bool) (targs? : Option (List (String × Bool)))
    (p : String) :
    ((CamemBERT.initFull g dir msl dlc targs?).adapter.save p).configPath
      = p ++ "/sentence_camembert_config.json" ∧
    ((CamemBERT.initFull g dir msl dlc targs?).adapter.save p).configJson
      = Json.jobj
          [("max_seq_length",
            Json.jnum (CamemBERT.initFull g dir msl dlc targs?).adapter.max_seq_length),
           ("do_lower_case",
            match (CamemBERT.initFull g dir msl dlc targs?).adapter.do_lower_case with
            | none => Json.jnull
            | some b => Json.jbool b)] ∧
    ((CamemBERT.initFull g dir msl dlc targs?).adapter.save p).configIndent
      = 2 := by
  refine ⟨rfl, ?_, rfl⟩
  cases dlc <;>
    simp [CamemBERT.save, CamemBERT.get_config_dict, CamemBERT.fieldJson,
      CamemBERT.initFull]

/-- C8: `tokenize` is deterministic — equal texts give equal id
sequences — and is exactly the tokenizer's sub-word split mapped to ids;
in particular, when the raw sub-word tokens of the text do not map to the
classification or separator ids, neither special id occurs in the result
(no special tokens are added by this stage). -/
theorem tokenize_deterministic_no_specials (m : CamemBERT) (t1 t2 : String)
    (heq : t1 = t2)
    (hc : ∀ tok ∈ m.tokenizer.tokenizeText t1,
      m.tokenizer.convert tok ≠ m.cls_token_id)
    (hs : ∀ tok ∈ m.tokenizer.tokenizeText t1,
      m.tokenizer.convert tok ≠ m.sep_token_id) :
    m.tokenize t1 = m.tokenize t2 ∧
    m.tokenize t1
      = m.tokenizer.convert_tokens_to_ids (m.tokenizer.tokenizeText t1) ∧
    m.cls_token_id ∉ m.tokenize t1 ∧
    m.sep_token_id ∉ m.tokenize t1 := by
  subst heq
  refine ⟨rfl, rfl, ?_, ?_⟩
  · intro hmem
    simp [CamemBERT.tokenize, CamembertTokenizer.convert_tokens_to_ids,
      List.mem_map] at hmem
    obtain ⟨tok, htok, hconv⟩ := hmem
    exact hc tok htok hconv
  · intro hmem
    simp [CamemBERT.tokenize, CamembertTokenizer.convert_tokens_to_ids,
      List.mem_map] at hmem
    obtain ⟨tok, htok, hconv⟩ := hmem
    exact hs tok htok hconv

theorem tokenize_deterministic_no_specials_witness :
    demoAdapter.tokenize "Bonjour" = demoAdapter.tokenize "Bonjour" ∧
    demoAdapter.tokenize "Bonjour"
      = demoAdapter.tokenizer.convert_tokens_to_ids
          (demoAdapter.tokenizer.tokenizeText "Bonjour") ∧
    demoAdapter.cls_token_id ∉ demoAdapter.tokenize "Bonjour" ∧
    demoAdapter.sep_token_id ∉ demoAdapter.tokenize "Bonjour" :=
  tokenize_deterministic_no_specials demoAdapter "Bonjour" "Bonjour" rfl
    (by decide) (by decide)

theorem take_one_head {α : Type} (l : List α) : (l.take 1)[0]? = l[0]? := by
  cases l <;> simp

/-- C4: when `forward` returns, the `attention_mask` entry of the result
equals the one of the input, `token_embeddings` is the first element of
the encoder's output tuple, `cls_token_embeddings` is the embedding at
sequence position 0 of that tensor, and every key present in the input
dictionary is still present in the result. -/
theorem forward_frame (m : CamemBERT) (f out : Features) (k : String)
    (h : m.forward f = some out) (hk : (dlookup f k).isSome) :
    dlookup out "attention_mask" = dlookup f "attention_mask" ∧
    (∃ ot, (m.camembert.run f)[0]? = some (Tensor.f3 ot) ∧
      dlookup out "token_embeddings" = some (Tensor.f3 ot) ∧
      ∃ c, clsOf ot = some c ∧
        dlookup out "cls_token_embeddings" = some (Tensor.i2 c)) ∧
    (dlookup out k).isSome := by
  cases h0 : (m.camembert.run f)[0]? with
  | none => simp [CamemBERT.forward, h0] at h
  | some t0 =>
    cases t0 with
    | i2 x => simp [CamemBERT.forward, h0] at h
    | stack x => simp [CamemBERT.forward, h0] at h
    | f3 ot =>
      cases h1 : clsOf ot with
      | none => simp [CamemBERT.forward, h0, h1] at h
      | some c =>
        cases h2 : dlookup f "attention_mask" with
        | none => simp [CamemBERT.forward, h0, h1, h2] at h
        | some am =>
          by_cases h3 : m.camembert.config.output_hidden_states = true
          · cases h4 : (m.camembert.run f)[2]? with
            | none => simp [CamemBERT.forward, h0, h1, h2, h3, h4] at h
            | some hs =>
              simp only [CamemBERT.forward, h0, h1, h2, h3, h4, if_true,
                dictUpdate, List.foldl] at h
              injection h with h
              subst h
              refine ⟨?_, ⟨ot, rfl, ?_, c, h1, ?_⟩, ?_⟩
              · rw [dlookup_dictSet_of_ne _ _ _ _ (by decide),
                  dlookup_dictSet_self]
              · rw [dlookup_dictSet_of_ne _ _ _ _ (by decide),
                  dlookup_dictSet_of_ne _ _ _ _ (by decide),
                  dlookup_dictSet_of_ne _ _ _ _ (by decide),
                  dlookup_dictSet_self]
              · rw [dlookup_dictSet_of_ne _ _ _ _ (by decide),
                  dlookup_dictSet_of_ne _ _ _ _ (by decide),
                  dlookup_dictSet_self]
              · exact isSome_dlookup_dictSet _ _ _ _
                  (isSome_dlookup_dictSet _ _ _ _
                    (isSome_dlookup_dictSet _ _ _ _
                      (isSome_dlookup_dictSet _ _ _ _ hk)))
          · simp only [CamemBERT.forward, h0, h1, h2, h3, if_false,
              Bool.not_eq_true, dictUpdate, List.foldl] at h
            injection h with h
            subst h
            refine ⟨?_, ⟨ot, rfl, ?_, c, h1, ?_⟩, ?_⟩
            · rw [dlookup_dictSet_self]
            · rw [dlookup_dictSet_of_ne _ _ _ _ (by decide),
                dlookup_dictSet_of_ne _ _ _ _ (by decide),
                dlookup_dictSet_self]
            · rw [dlookup_dictSet_of_ne _ _ _ _ (by decide),
                dlookup_dictSet_self]
            · exact isSome_dlookup_dictSet _ _ _ _
                (isSome_dlookup_dictSet _ _ _ _
                  (isSome_dlookup_dictSet _ _ _ _ hk))

theorem forward_frame_witness :
    dlookup [("attention_mask", Tensor.i2 [[1, 1]]),
        ("token_embeddings", Tensor.f3 [[[1, 2], [3, 4]]]),
        ("cls_token_embeddings", Tensor.i2 [[1, 2]])] "attention_mask"
      = dlookup [("attention_mask", Tensor.i2 [[1, 1]])] "attention_mask" ∧
    (∃ ot, (demoAdapter.camembert.run
        [("attention_mask", Tensor.i2 [[1, 1]])])[0]? = some (Tensor.f3 ot) ∧
      dlookup [("attention_mask", Tensor.i2 [[1, 1]]),
          ("token_embeddings", Tensor.f3 [[[1, 2], [3, 4]]]),
          ("cls_token_embeddings", Tensor.i2 [[1, 2]])] "token_embeddings"
        = some (Tensor.f3 ot) ∧
      ∃ c, clsOf ot = some c ∧
        dlookup [("attention_mask", Tensor.i2 [[1, 1]]),
            ("token_embeddings", Tensor.f3 [[[1, 2], [3, 4]]]),
            ("cls_token_embeddings", Tensor.i2 [[1, 2]])] "cls_token_embeddings"
          = some (Tensor.i2 c)) ∧
    (dlookup [("attention_mask", Tensor.i2 [[1, 1]]),
        ("token_embeddings", Tensor.f3 [[[1, 2], [3, 4]]]),
        ("cls_token_embeddings", Tensor.i2 [[1, 2]])] "attention_mask").isSome :=
  forward_frame demoAdapter [("attention_mask", Tensor.i2 [[1, 1]])]
    [("attention_mask", Tensor.i2 [[1, 1]]),
     ("token_embeddings", Tensor.f3 [[[1, 2], [3, 4]]]),
     ("cls_token_embeddings", Tensor.i2 [[1, 2]])] "attention_mask"
    (by rfl) (by rfl)

/-- C5: `forward` stores `all_layer_embeddings`, taken from index 2 of the
encoder's output tuple, exactly when `output_hidden_states` is set: with
the flag set the result carries that element under `all_layer_embeddings`;
with the flag unset no such field appears in the result, and `forward`
never reads index 2 — its result is unchanged when the output tuple is cut
down to its first element. -/
theorem forward_hidden_states_guard (m : CamemBERT) (f out : Features)
    (h : m.forward f = some out)
    (hin : dlookup f "all_layer_embeddings" = none) :
    (m.camembert.config.output_hidden_states = true →
      ((m.camembert.run f)[2]?).isSome ∧
      dlookup out "all_layer_embeddings" = (m.camembert.run f)[2]?) ∧
    (m.camembert.config.output_hidden_states = false →
      dlookup out "all_layer_embeddings" = none) ∧
    (m.camembert.config.output_hidden_states = false →
      CamemBERT.forward { m with camembert := truncateOutputs m.camembert } f
        = m.forward f) := by
  refine ⟨?_, ?_, ?_⟩
  · intro h3
    cases h0 : (m.camembert.run f)[0]? with
    | none => simp [CamemBERT.forward, h0] at h
    | some t0 =>
      cases t0 with
      | i2 x => simp [CamemBERT.forward, h0] at h
      | stack x => simp [CamemBERT.forward, h0] at h
      | f3 ot =>
        cases h1 : clsOf ot with
        | none => simp [CamemBERT.forward, h0, h1] at h
        | some c =>
          cases h2 : dlookup f "attention_mask" with
          | none => simp [CamemBERT.forward, h0, h1, h2] at h
          | some am =>
            cases h4 : (m.camembert.run f)[2]? with
            | none => simp [CamemBERT.forward, h0, h1, h2, h3, h4] at h
            | some hs =>
              simp only [CamemBERT.forward, h0, h1, h2, h3, h4, if_true,
                dictUpdate, List.foldl] at h
              injection h with h
              subst h
              exact ⟨by simp, by rw [dlookup_dictSet_self]⟩
  · intro h3
    cases h0 : (m.camembert.run f)[0]? with
    | none => simp [CamemBERT.forward, h0] at h
    | some t0 =>
      cases t0 with
      | i2 x => simp [CamemBERT.forward, h0] at h
      | stack x => simp [CamemBERT.forward, h0] at h
      | f3 ot =>
        cases h1 : clsOf ot with
        | none => simp [CamemBERT.forward, h0, h1] at h
        | some c =>
          cases h2 : dlookup f "attention_mask" with
          | none => simp [CamemBERT.forward, h0, h1, h2] at h
          | some am =>
            simp only [CamemBERT.forward, h0, h1, h2, h3, if_false,
              Bool.false_eq_true, dictUpdate, List.foldl] at h
            injection h with h
            subst h
            rw [dlookup_dictSet_of_ne _ _ _ _ (by decide),
              dlookup_dictSet_of_ne _ _ _ _ (by decide),
              dlookup_dictSet_of_ne _ _ _ _ (by decide), hin]
  · intro h3
    simp [CamemBERT.forward, truncateOutputs, take_one_head, h3]

theorem forward_hidden_states_guard_witness :
    ((demoAdapterH.camembert.run
        [("attention_mask", Tensor.i2 [[1, 1]])])[2]?).isSome ∧
    dlookup [("attention_mask", Tensor.i2 [[1, 1]]),
        ("token_embeddings", Tensor.f3 [[[1, 2], [3, 4]]]),
        ("cls_token_embeddings", Tensor.i2 [[1, 2]]),
        ("all_layer_embeddings", Tensor.stack [[[[7, 8], [9, 10]]]])]
        "all_layer_embeddings"
      = (demoAdapterH.camembert.run
          [("attention_mask", Tensor.i2 [[1, 1]])])[2]? :=
  (forward_hidden_states_guard demoAdapterH
    [("attention_mask", Tensor.i2 [[1, 1]])]
    [("attention_mask", Tensor.i2 [[1, 1]]),
     ("token_embeddings", Tensor.f3 [[[1, 2], [3, 4]]]),
     ("cls_token_embeddings", Tensor.i2 [[1, 2]]),
     ("all_layer_embeddings", Tensor.stack [[[[7, 8], [9, 10]]]])]
    (by rfl) (by rfl)).1 rfl

theorem parseConfig_config_dict (A : CamemBERT)
    (hk : A.config_keys = ["max_seq_length", "do_lower_case"]) :
    parseConfig (Json.jobj A.get_config_dict)
      = some (A.max_seq_length, A.do_lower_case) := by
  cases hdlc : A.do_lower_case <;>
    simp [CamemBERT.get_config_dict, hk, CamemBERT.fieldJson, parseConfig,
      dlookup, hdlc]

theorem load_save (g : PyGlobals) (A : CamemBERT) (p : String)
    (hk : A.config_keys = ["max_seq_length", "do_lower_case"]) :
    CamemBERT.load g (A.save p)
      = some (CamemBERT.initFull g ⟨A.camembert, A.tokenizer⟩
          A.max_seq_length A.do_lower_case none).adapter := by
  simp [CamemBERT.load, CamemBERT.save, SavedDir.toPretrained,
    parseConfig_config_dict A hk]

theorem get_config_dict_init (g : PyGlobals) (dir : Pretrained) (msl : Nat)
    (dlc : Option Bool) (targs? : Option (List (String × Bool))) :
    (CamemBERT.initFull g dir msl dlc targs?).adapter.get_config_dict
      = [("max_seq_length",
          Json.jnum (CamemBERT.initFull g dir msl dlc targs?).adapter.max_seq_length),
         ("do_lower_case",
          match dlc with
          | none => Json.jnull
          | some b => Json.jbool b)] := by
  cases dlc <;>
    simp [CamemBERT.initFull, CamemBERT.get_config_dict, CamemBERT.fieldJson]

theorem init_max_le (g : PyGlobals) (dir : Pretrained) (msl : Nat)
    (dlc : Option Bool) (targs? : Option (List (String × Bool))) :
    (CamemBERT.initFull g dir msl dlc targs?).adapter.max_seq_length ≤ 511 := by
  show (if 511 < msl then 511 else msl) ≤ 511
  split <;> omega

theorem init_max_of_le (g : PyGlobals) (dir : Pretrained) (msl : Nat)
    (dlc : Option Bool) (targs? : Option (List (String × Bool)))
    (h : msl ≤ 511) :
    (CamemBERT.initFull g dir msl dlc targs?).adapter.max_seq_length = msl := by
  show (if 511 < msl then 511 else msl) = msl
  rw [if_neg (by omega)]

/-- C3 counterexample: with the shared default `tokenizer_args` dictionary
polluted by a stale `do_lower_case: true` entry, loading a saved
case-sensitive adapter succeeds but the loaded adapter tokenizes "Bonjour"
differently from the original — the original round-trip claim is false in
that interpreter state. -/
theorem save_load_roundtrip_polluted_default_cex :
    CamemBERT.load ⟨[("do_lower_case", true)]⟩
        ((CamemBERT.initFull ⟨[]⟩ demoDirCase 128 none (some [])).adapter.save
          "out")
      = some (CamemBERT.initFull ⟨[("do_lower_case", true)]⟩
          ⟨demoModel, demoTokenizerCase⟩ 128 none none).adapter ∧
    (CamemBERT.initFull ⟨[("do_lower_case", true)]⟩
        ⟨demoModel, demoTokenizerCase⟩ 128 none none).adapter.tokenize "Bonjour"
      ≠ (CamemBERT.initFull ⟨[]⟩ demoDirCase 128 none
          (some [])).adapter.tokenize "Bonjour" := by
  refine ⟨by rfl, ?_⟩
  have h1 : (CamemBERT.initFull ⟨[("do_lower_case", true)]⟩
      ⟨demoModel, demoTokenizerCase⟩ 128 none none).adapter.tokenize "Bonjour"
      = [9] := by rfl
  have h2 : (CamemBERT.initFull ⟨[]⟩ demoDirCase 128 none
      (some [])).adapter.tokenize "Bonjour" = [5] := by rfl
  rw [h1, h2]
  decide

/-- C3 (amended): constructing adapter A, saving it, then loading the
saved directory under ambient shared-default state `gload` yields an
adapter B whose `max_seq_length`, `do_lower_case` and `get_config_dict()`
equal A's unconditionally; and B tokenizes every text exactly as A does
provided the shared default `tokenizer_args` dictionary in effect at load
time carries no `do_lower_case` entry, or A was constructed with an
explicit `do_lower_case` (which overwrites any stale entry). -/
theorem save_load_roundtrip_amended (g gload : PyGlobals) (dir : Pretrained)
    (msl : Nat) (dlc : Option Bool) (targs? : Option (List (String × Bool)))
    (p s : String) (B : CamemBERT)
    (h : CamemBERT.load gload
        ((CamemBERT.initFull g dir msl dlc targs?).adapter.save p) = some B) :
    B.max_seq_length
      = (CamemBERT.initFull g dir msl dlc targs?).adapter.max_seq_length ∧
    B.do_lower_case
      = (CamemBERT.initFull g dir msl dlc targs?).adapter.do_lower_case ∧
    B.get_config_dict
      = (CamemBERT.initFull g dir msl dlc targs?).adapter.get_config_dict ∧
    (dlookup gload.defaultTokenizerArgs "do_lower_case" = none ∨ dlc ≠ none →
      B.tokenize s
        = (CamemBERT.initFull g dir msl dlc targs?).adapter.tokenize s) := by
  rw [load_save gload _ p rfl] at h
  injection h with h
  subst h
  have hmax := init_max_of_le gload
    ⟨(CamemBERT.initFull g dir msl dlc targs?).adapter.camembert,
     (CamemBERT.initFull g dir msl dlc targs?).adapter.tokenizer⟩
    (CamemBERT.initFull g dir msl dlc targs?).adapter.max_seq_length
    (CamemBERT.initFull g dir msl dlc targs?).adapter.do_lower_case
    none (init_max_le g dir msl dlc targs?)
  refine ⟨hmax, rfl, ?_, ?_⟩
  · rw [get_config_dict_init, get_config_dict_init, hmax]
    rfl
  · intro hcl
    have htok : (CamemBERT.initFull gload
        ⟨(CamemBERT.initFull g dir msl dlc targs?).adapter.camembert,
         (CamemBERT.initFull g dir msl dlc targs?).adapter.tokenizer⟩
        (CamemBERT.initFull g dir msl dlc targs?).adapter.max_seq_length
        (CamemBERT.initFull g dir msl dlc targs?).adapter.do_lower_case
        none).adapter.tokenizer
        = (CamemBERT.initFull g dir msl dlc targs?).adapter.tokenizer := by
      cases dlc with
      | none =>
        have hclean : dlookup gload.defaultTokenizerArgs "do_lower_case"
            = none := by
          rcases hcl with hc | hc
          · exact hc
          · exact absurd rfl hc
        show CamembertTokenizer.from_pretrained
            ⟨(CamemBERT.initFull g dir msl none targs?).adapter.camembert,
             (CamemBERT.initFull g dir msl none targs?).adapter.tokenizer⟩
            gload.defaultTokenizerArgs
          = (CamemBERT.initFull g dir msl none targs?).adapter.tokenizer
        simp [CamembertTokenizer.from_pretrained, hclean]
      | some b =>
        have hA : (CamemBERT.initFull g dir msl (some b)
            targs?).adapter.tokenizer.do_lower_case = b := by
          show (CamembertTokenizer.from_pretrained dir
            (dictSet _ "do_lower_case" b)).do_lower_case = b
          simp [CamembertTokenizer.from_pretrained, dlookup_dictSet_self]
        have hB : (CamemBERT.initFull gload
            ⟨(CamemBERT.initFull g dir msl (some b) targs?).adapter.camembert,
             (CamemBERT.initFull g dir msl (some b) targs?).adapter.tokenizer⟩
            (CamemBERT.initFull g dir msl (some b) targs?).adapter.max_seq_length
            (CamemBERT.initFull g dir msl (some b) targs?).adapter.do_lower_case
            none).adapter.tokenizer
            = { (CamemBERT.initFull g dir msl (some b) targs?).adapter.tokenizer
                with do_lower_case := b } := by
          show CamembertTokenizer.from_pretrained
              ⟨(CamemBERT.initFull g dir msl (some b) targs?).adapter.camembert,
               (CamemBERT.initFull g dir msl (some b) targs?).adapter.tokenizer⟩
              (dictSet gload.defaultTokenizerArgs "do_lower_case" b)
            = { (CamemBERT.initFull g dir msl (some b) targs?).adapter.tokenizer
                with do_lower_case := b }
          simp [CamembertTokenizer.from_pretrained, dlookup_dictSet_self]
        exact hB.trans (tokenizer_eta _ _ hA)
    simp [CamemBERT.tokenize, htok]

theorem save_load_roundtrip_amended_witness :
    (CamemBERT.initFull ⟨[]⟩ ⟨demoModel, demoTokenizer⟩
        128 none none).adapter.max_seq_length
      = (CamemBERT.initFull ⟨[]⟩ demoDir 128 none (some [])).adapter.max_seq_length ∧
    (CamemBERT.initFull ⟨[]⟩ ⟨demoModel, demoTokenizer⟩
        128 none none).adapter.do_lower_case
      = (CamemBERT.initFull ⟨[]⟩ demoDir 128 none (some [])).adapter.do_lower_case ∧
    (CamemBERT.initFull ⟨[]⟩ ⟨demoModel, demoTokenizer⟩
        128 none none).adapter.get_config_dict
      = (CamemBERT.initFull ⟨[]⟩ demoDir 128 none (some [])).adapter.get_config_dict ∧
    (CamemBERT.initFull ⟨[]⟩ ⟨demoModel, demoTokenizer⟩
        128 none none).adapter.tokenize "Bonjour"
      = (CamemBERT.initFull ⟨[]⟩ demoDir 128 none (some [])).adapter.tokenize "Bonjour" :=
  have T := save_load_roundtrip_amended ⟨[]⟩ ⟨[]⟩ demoDir 128 none (some [])
    "out" "Bonjour"
    (CamemBERT.initFull ⟨[]⟩ ⟨demoModel, demoTokenizer⟩ 128 none none).adapter
    (by rfl)
  ⟨T.1, T.2.1, T.2.2.1, T.2.2.2 (Or.inl rfl)⟩

